import Mathlib

/-!
Verification of the WeightPilot UI backend client and local result cache.

The development shallowly embeds the Python modules `tabs/action.py`,
`services/agent_api.py` and `ui.py`:

* JSON-serializable Python values are modelled by the inductive type `Json`
  (numbers as rationals, objects as association lists with unique keys,
  Python `None` identified with JSON `null`).
* The local file system used by the cache is a map from path strings to an
  optional `FileData`: `FileData.valid j` models a file whose contents parse
  as the JSON document `j`; `FileData.invalid` models a file that is
  unreadable or whose contents are not valid JSON (truncated, corrupted).
* HTTP exchanges are modelled by `HttpOutcome`: either a transport failure
  (connection error or timeout) or a response carrying a status code, the
  raw body text, and the result of attempting to parse the body as JSON.
* Exceptions raised by Python code are modelled with `Except`: a function
  that can propagate an exception returns `Except CallError α`.
-/

namespace WeightPilot

/-- JSON-serializable values, as produced and consumed by `json.dump` /
`json.load`.  Object fields are an association list; objects obtained from
the Python `json` module have unique keys, and lookups return the binding
of the key when present. -/
inductive Json where
  | null : Json
  | bool (b : Bool) : Json
  | num (q : Rat) : Json
  | str (s : String) : Json
  | arr (elems : List Json) : Json
  | obj (fields : List (String × Json)) : Json

mutual

/-- Decidable equality of JSON values. -/
def Json.decEq : (a b : Json) → Decidable (a = b)
  | .null, .null => .isTrue rfl
  | .null, .bool _ => .isFalse (fun h => Json.noConfusion h)
  | .null, .num _ => .isFalse (fun h => Json.noConfusion h)
  | .null, .str _ => .isFalse (fun h => Json.noConfusion h)
  | .null, .arr _ => .isFalse (fun h => Json.noConfusion h)
  | .null, .obj _ => .isFalse (fun h => Json.noConfusion h)
  | .bool _, .null => .isFalse (fun h => Json.noConfusion h)
  | .bool x, .bool y =>
      if h : x = y then .isTrue (by rw [h]) else .isFalse (fun hh => h (Json.bool.inj hh))
  | .bool _, .num _ => .isFalse (fun h => Json.noConfusion h)
  | .bool _, .str _ => .isFalse (fun h => Json.noConfusion h)
  | .bool _, .arr _ => .isFalse (fun h => Json.noConfusion h)
  | .bool _, .obj _ => .isFalse (fun h => Json.noConfusion h)
  | .num _, .null => .isFalse (fun h => Json.noConfusion h)
  | .num _, .bool _ => .isFalse (fun h => Json.noConfusion h)
  | .num x, .num y =>
      if h : x = y then .isTrue (by rw [h]) else .isFalse (fun hh => h (Json.num.inj hh))
  | .num _, .str _ => .isFalse (fun h => Json.noConfusion h)
  | .num _, .arr _ => .isFalse (fun h => Json.noConfusion h)
  | .num _, .obj _ => .isFalse (fun h => Json.noConfusion h)
  | .str _, .null => .isFalse (fun h => Json.noConfusion h)
  | .str _, .bool _ => .isFalse (fun h => Json.noConfusion h)
  | .str _, .num _ => .isFalse (fun h => Json.noConfusion h)
  | .str x, .str y =>
      if h : x = y then .isTrue (by rw [h]) else .isFalse (fun hh => h (Json.str.inj hh))
  | .str _, .arr _ => .isFalse (fun h => Json.noConfusion h)
  | .str _, .obj _ => .isFalse (fun h => Json.noConfusion h)
  | .arr _, .null => .isFalse (fun h => Json.noConfusion h)
  | .arr _, .bool _ => .isFalse (fun h => Json.noConfusion h)
  | .arr _, .num _ => .isFalse (fun h => Json.noConfusion h)
  | .arr _, .str _ => .isFalse (fun h => Json.noConfusion h)
  | .arr xs, .arr ys =>
      match Json.decEqList xs ys with
      | .isTrue h => .isTrue (by rw [h])
      | .isFalse h => .isFalse (fun hh => h (Json.arr.inj hh))
  | .arr _, .obj _ => .isFalse (fun h => Json.noConfusion h)
  | .obj _, .null => .isFalse (fun h => Json.noConfusion h)
  | .obj _, .bool _ => .isFalse (fun h => Json.noConfusion h)
  | .obj _, .num _ => .isFalse (fun h => Json.noConfusion h)
  | .obj _, .str _ => .isFalse (fun h => Json.noConfusion h)
  | .obj _, .arr _ => .isFalse (fun h => Json.noConfusion h)
  | .obj xs, .obj ys =>
      match Json.decEqFields xs ys with
      | .isTrue h => .isTrue (by rw [h])
      | .isFalse h => .isFalse (fun hh => h (Json.obj.inj hh))

/-- Decidable equality of JSON arrays. -/
def Json.decEqList : (a b : List Json) → Decidable (a = b)
  | [], [] => .isTrue rfl
  | [], _ :: _ => .isFalse (fun h => List.noConfusion h)
  | _ :: _, [] => .isFalse (fun h => List.noConfusion h)
  | x :: xs, y :: ys =>
      match Json.decEq x y with
      | .isFalse h1 => .isFalse (fun h => h1 (List.cons.inj h).1)
      | .isTrue h1 =>
        match Json.decEqList xs ys with
        | .isTrue h2 => .isTrue (by rw [h1, h2])
        | .isFalse h2 => .isFalse (fun h => h2 (List.cons.inj h).2)

/-- Decidable equality of JSON object field lists. -/
def Json.decEqFields : (a b : List (String × Json)) → Decidable (a = b)
  | [], [] => .isTrue rfl
  | [], _ :: _ => .isFalse (fun h => List.noConfusion h)
  | _ :: _, [] => .isFalse (fun h => List.noConfusion h)
  | (k, v) :: xs, (k2, v2) :: ys =>
      if hk : k = k2 then
        match Json.decEq v v2 with
        | .isFalse h1 =>
            .isFalse (fun h => h1 (congrArg Prod.snd (List.cons.inj h).1))
        | .isTrue h1 =>
          match Json.decEqFields xs ys with
          | .isTrue h2 => .isTrue (by rw [hk, h1, h2])
          | .isFalse h2 => .isFalse (fun h => h2 (List.cons.inj h).2)
      else .isFalse (fun h => hk (congrArg Prod.fst (List.cons.inj h).1))

end

instance : DecidableEq Json := Json.decEq

/-- Contents of one file of the cache directory: either a well-formed JSON
document, or bytes that `json.load` rejects (also covering an unreadable
file). -/
inductive FileData where
  | valid (j : Json) : FileData
  | invalid : FileData
deriving DecidableEq

/-- The file system visible to the cache: a partial map from path strings to
file contents.  `none` means the path does not exist. -/
def FS : Type := String → Option FileData

/-- The empty file system. -/
def emptyFS : FS := fun _ => none

/-- Whether a POSIX path string is absolute, i.e. starts with the separator
`/` — the `b.startswith(sep)` test of `posixpath.join`. -/
def isAbs (s : String) : Bool := s.data.head? == some '/'

/-- Whether a path string ends with the separator `/` — the
`a.endswith(sep)` test of `posixpath.join`. -/
def endsWithSep (s : String) : Bool := s.data.getLast? == some '/'

/-- `os.path.join(a, b)` for POSIX paths and two components: if `b` is
absolute the first component is discarded; otherwise the components are
joined, inserting `/` unless `a` is empty or already ends with `/`. -/
def osPathJoin (a b : String) : String :=
  if isAbs b then b
  else if a = "" ∨ endsWithSep a then a ++ b
  else a ++ "/" ++ b

/-- `_cache_path` of `tabs/action.py`: `os.path.join(CACHE_DIR, f"{name}.json")`.
The cache directory (`CACHE_DIR`, resolved from the environment at process
start) is passed as the parameter `dir`. -/
def cache_path (dir name : String) : String := osPathJoin dir (name ++ ".json")

/-- `_save_cache` of `tabs/action.py`: writes the JSON document
`{"ts": time.time(), "data": data}` to the file `_cache_path name`,
replacing any previous contents.  The wall-clock reading `time.time()` is
passed as the parameter `ts`. -/
def save_cache (dir : String) (fs : FS) (name : String) (ts : Rat) (data : Json) : FS :=
  fun p => if p = cache_path dir name
    then some (.valid (.obj [("ts", .num ts), ("data", data)]))
    else fs p

/-- `_load_cache` of `tabs/action.py`: opens `_cache_path name`, parses it as
JSON and returns `json.load(f).get("data")`.  Every exception (missing file,
unreadable file, parse failure, or `.get` on a non-dict document) is caught
and turned into `None`, which is identified with `Json.null`; `dict.get` of
an absent key also yields `None`. -/
def load_cache (dir : String) (fs : FS) (name : String) : Json :=
  match fs (cache_path dir name) with
  | some (.valid (.obj fields)) => (fields.lookup "data").getD .null
  | _ => .null

/-- The cache-clearing action of `tabs/action.py` (`render`, clear buttons):
`os.remove(_cache_path(name))` inside `try: ... except Exception: pass`, so
removing an absent entry is a no-op rather than an error. -/
def clear_cache (dir : String) (fs : FS) (name : String) : FS :=
  fun p => if p = cache_path dir name then none else fs p

/-! ## HTTP client (`services/agent_api.py`, `ui.py`) -/

/-- The outcome of one HTTP exchange as seen by the `requests` library:
either a transport failure (connection error or timeout, raised as an
exception), or a response carrying its status code, its body text, and the
result of parsing the body as JSON (`none` when `r.json()` would raise a
decode error). -/
inductive HttpOutcome where
  | failure : HttpOutcome
  | response (status : Nat) (text : String) (bodyJson : Option Json) : HttpOutcome
deriving DecidableEq

/-- The exceptions a backend call can propagate: a transport failure
(`requests.ConnectionError` / `requests.Timeout`), an HTTP error raised by
`raise_for_status()` (carrying the status and body text), a JSON decode
failure from `r.json()`, or an `AttributeError` from calling `.get` on a
parsed body that is not a dict. -/
inductive CallError where
  | connectivity : CallError
  | httpError (status : Nat) (text : String) : CallError
  | decodeError : CallError
  | attrError : CallError
deriving DecidableEq

/-- `ping_backend` of `services/agent_api.py` (and the identical function in
`ui.py`): issues `GET {AGENT_API_URL}/health` with a 10-second timeout and
returns `r.status_code == 200`; every exception is caught and turned into
`False`.  A response that does not arrive within the timeout surfaces as
`HttpOutcome.failure`. -/
def ping_backend (o : HttpOutcome) : Bool :=
  match o with
  | .failure => false
  | .response status _ _ => status == 200

/-- The common response handling `r.raise_for_status(); return r.json()` of
the backend calls in `services/agent_api.py`.  `raise_for_status` raises
`requests.HTTPError` exactly for status codes in `[400, 600)`; otherwise the
body is parsed, raising a decode error if it is not valid JSON. -/
def raise_then_json (o : HttpOutcome) : Except CallError Json :=
  match o with
  | .failure => .error .connectivity
  | .response status text bodyJson =>
    if 400 ≤ status ∧ status < 600 then .error (.httpError status text)
    else
      match bodyJson with
      | some j => .ok j
      | none => .error .decodeError

/-- One outbound HTTP request recorded by a backend call.  The body is the
JSON value serialized by `json.dumps` onto the wire; `json.dumps` / the
receiver's JSON parsing are inverse on JSON values, so the body is recorded
as the JSON value itself. -/
structure Request where
  method : String
  path : String
  body : Option Json
deriving DecidableEq

/-- `generate_diet_plan` of `services/agent_api.py`: issues exactly one
`POST {AGENT_API_URL}/v1/plan` whose body is `json.dumps(profile)`, then
`r.raise_for_status()` and `return r.json()`.  The returned pair records
the outbound requests and the call's result. -/
def generate_diet_plan (profile : Json) (o : HttpOutcome) :
    List Request × Except CallError Json :=
  ([{ method := "POST", path := "/v1/plan", body := some profile }], raise_then_json o)

/-- Python's `d.get(key, default)` on a parsed JSON body: on a dict it
returns the binding of `key` (which may itself be `null`) or `default` when
the key is absent; on any non-dict value the attribute access `.get` raises
an `AttributeError`, which none of the callers catch. -/
def dictGet (j : Json) (key : String) (default : Json) : Except CallError Json :=
  match j with
  | .obj fields => .ok ((fields.lookup key).getD default)
  | _ => .error .attrError

/-- `recipe_suggestions` of `services/agent_api.py`:
`POST /v1/recipe/suggest`, `raise_for_status`, then
`return r.json().get("suggestions", [])`. -/
def recipe_suggestions (o : HttpOutcome) : Except CallError Json :=
  (raise_then_json o).bind (fun j => dictGet j "suggestions" (.arr []))

/-- `find_local_pros` of `services/agent_api.py`:
`POST /v1/coach/search`, `raise_for_status`, then
`return r.json().get("items", [])`. -/
def find_local_pros (o : HttpOutcome) : Except CallError Json :=
  (raise_then_json o).bind (fun j => dictGet j "items" (.arr []))

/-! ## Session state and profile construction -/

/-- The session-state fields read by `build_profile_from_session` in
`services/agent_api.py`, with the types the Profile-tab widgets store
(numbers, strings, string lists).  The optional free-text inputs
(`Gender(optional)`, `Race/Ethnicity (optional)`) are modelled as strings
where `""` stands for an empty or unset input: Python's `x or None` maps
both `None` and `""` to `None`. -/
structure SessionState where
  age : Int
  gender : String
  heightCm : Rat
  weightKg : Rat
  genderOptional : String
  raceEthnicity : String
  activityLevel : String
  goal : String
  intensity : String
  dietPattern : String
  cuisines : List String
  allergies : List String
  medicalFlags : List String
deriving DecidableEq

/-- `build_profile_from_session` of `services/agent_api.py`: builds the
profile dict sent to the backend.  `goal` is
`(ss.get("Goal", "lose") or "lose").lower()`; `diet` becomes `null` when
the selected pattern is `"none"`; `allergies` and `medical_flags` become
`[]` when `"none"` is among the selected strings; `cuisines` is
`cuisines or []`. -/
def build_profile_from_session (ss : SessionState) : Json :=
  .obj [
    ("age", .num ss.age),
    ("sex_assigned_at_birth", .str ss.gender),
    ("gender_identity", if ss.genderOptional = "" then .null else .str ss.genderOptional),
    ("height_cm", .num ss.heightCm),
    ("weight_kg", .num ss.weightKg),
    ("activity_level", .str ss.activityLevel),
    ("goal", .str (if ss.goal = "" then "lose" else ss.goal).toLower),
    ("goal_rate", .str ss.intensity),
    ("diet", if ss.dietPattern = "none" then .null else .str ss.dietPattern),
    ("allergies", .arr (if "none" ∈ ss.allergies then [] else ss.allergies.map .str)),
    ("medical_flags", .arr (if "none" ∈ ss.medicalFlags then [] else ss.medicalFlags.map .str)),
    ("cuisines", .arr ((if ss.cuisines = [] then [] else ss.cuisines).map .str)),
    ("race_ethnicity", if ss.raceEthnicity = "" then .null else .str ss.raceEthnicity)
  ]

/-- Field access on the JSON profile object: the binding of `key` when the
value is an object that contains it. -/
def Json.lookupField (j : Json) (key : String) : Option Json :=
  match j with
  | .obj fields => fields.lookup key
  | _ => none

/-! ## The Action tab's diet handlers (`tabs/action.py`, `render`) -/

/-- A message surfaced to the user by the diet-generate handler:
`st.success(...)` on success, `st.error(...)` carrying the caught exception
on failure. -/
inductive UiMessage where
  | successMsg (text : String) : UiMessage
  | errorMsg (e : CallError) : UiMessage
deriving DecidableEq

/-- The application state touched by the Action tab's diet handlers:
`st.session_state["diet_result"]` (with Python `None` as `Json.null`), the
cache file system, and the list of messages shown to the user. -/
structure AppState where
  dietResult : Json
  fs : FS
  messages : List UiMessage

/-- The `Generate my 7-day plan` handler of `tabs/action.py`: builds the
profile from session state and calls `generate_diet_plan`; on success it
stores the result in `st.session_state["diet_result"]`, saves it to the
cache under `"diet_result"`, and shows a success message; every exception
is caught and shown as an error message, leaving the rest of the state
untouched. -/
def diet_generate_handler (dir : String) (st : AppState) (ss : SessionState)
    (o : HttpOutcome) (ts : Rat) : AppState :=
  match (generate_diet_plan (build_profile_from_session ss) o).2 with
  | .ok result =>
      { st with dietResult := result,
                fs := save_cache dir st.fs "diet_result" ts result,
                messages := st.messages ++ [.successMsg "Diet plan ready"] }
  | .error e =>
      { st with messages := st.messages ++ [.errorMsg e] }

/-- The `Clear diet result` handler of `tabs/action.py`: sets
`st.session_state["diet_result"] = None` and removes the cache file inside
`try: ... except Exception: pass`. -/
def diet_clear_handler (dir : String) (st : AppState) : AppState :=
  { st with dietResult := .null, fs := clear_cache dir st.fs "diet_result" }

/-! ## Shared concrete instances used by witnesses and scenarios -/

/-- The default cache directory `~/.weightpilot_cache`, expanded for a home
directory `/root`. -/
def dir0 : String := "/root/.weightpilot_cache"

/-- The session state holding the Profile tab's default selections. -/
def ss0 : SessionState :=
  { age := 28, gender := "Male", heightCm := 170, weightKg := 72,
    genderOptional := "", raceEthnicity := "", activityLevel := "Light",
    goal := "lose", intensity := "moderate", dietPattern := "none",
    cuisines := ["American", "Indian"], allergies := ["none"],
    medicalFlags := ["none"] }

/-- An application state with no cached or displayed results. -/
def stInit : AppState := { dietResult := .null, fs := emptyFS, messages := [] }

/-! ## Helper lemmas on paths and strings -/

theorem wp_append_right_cancel (a b s : String) (h : a ++ s = b ++ s) : a = b := by
  apply String.ext
  have hd : a.data ++ s.data = b.data ++ s.data := by
    rw [← String.data_append, ← String.data_append, h]
  exact List.append_cancel_right hd

theorem wp_append_left_cancel (d a b : String) (h : d ++ a = d ++ b) : a = b := by
  apply String.ext
  have hd : d.data ++ a.data = d.data ++ b.data := by
    rw [← String.data_append, ← String.data_append, h]
  exact List.append_cancel_left hd

theorem isAbs_append_json (a : String) : isAbs (a ++ ".json") = isAbs a := by
  unfold isAbs
  rw [String.data_append]
  cases h : a.data with
  | nil => rfl
  | cons c cs => rfl

/-- Distinct names that are both relative (or both absolute) map to distinct
cache paths. -/
theorem cache_path_inj (dir a b : String) (habs : isAbs a = isAbs b) (hab : a ≠ b) :
    cache_path dir a ≠ cache_path dir b := by
  intro h
  unfold cache_path osPathJoin at h
  rw [isAbs_append_json, isAbs_append_json, ← habs] at h
  cases hA : isAbs a with
  | true =>
      rw [hA] at h
      simp only [if_pos] at h
      exact hab (wp_append_right_cancel a b ".json" h)
  | false =>
      rw [hA] at h
      simp only [Bool.false_eq_true, if_false] at h
      by_cases hdir : dir = "" ∨ endsWithSep dir
      · rw [if_pos hdir, if_pos hdir] at h
        exact hab (wp_append_right_cancel a b ".json" (wp_append_left_cancel dir _ _ h))
      · rw [if_neg hdir, if_neg hdir] at h
        exact hab (wp_append_right_cancel a b ".json" (wp_append_left_cancel (dir ++ "/") _ _ h))

/-! ## Claim theorems -/

/-- C1: for every cache directory, file system, name, timestamp and
JSON-serializable value `data`, saving `(name, data)` and then loading the
same name returns a value deep-equal to `data`. -/
theorem c1_save_then_load_roundtrip (dir : String) (fs : FS) (name : String)
    (ts : Rat) (data : Json) :
    load_cache dir (save_cache dir fs name ts data) name = data := by
  unfold load_cache save_cache
  simp [List.lookup]

/-- C2: for every name, loading an entry whose file does not exist, or is
unreadable or not valid JSON, returns `None` (modelled as `Json.null`);
`load_cache` is a total function, so no error is propagated. -/
theorem c2_load_absent_or_corrupt (dir : String) (fs : FS) (name : String)
    (h : fs (cache_path dir name) = none ∨ fs (cache_path dir name) = some .invalid) :
    load_cache dir fs name = .null := by
  unfold load_cache
  rcases h with h | h <;> rw [h]

theorem c2_witness :
    (emptyFS (cache_path dir0 "diet_result") = none ∨
      emptyFS (cache_path dir0 "diet_result") = some .invalid) ∧
    load_cache dir0 emptyFS "diet_result" = .null :=
  ⟨Or.inl rfl, c2_load_absent_or_corrupt dir0 emptyFS "diet_result" (Or.inl rfl)⟩

/-- C4: clearing a name makes a subsequent load of that name return `None`,
and clearing a name whose entry is already absent leaves the file system
unchanged; `clear_cache` is total (the `except Exception: pass` swallows the
`FileNotFoundError` of `os.remove`), so clearing never raises. -/
theorem c4_clear_then_load (dir : String) (fs : FS) (name : String) :
    load_cache dir (clear_cache dir fs name) name = .null ∧
    (∀ p : String, fs (cache_path dir name) = none → clear_cache dir fs name p = fs p) := by
  constructor
  · unfold load_cache clear_cache
    simp
  · intro p h
    unfold clear_cache
    by_cases hp : p = cache_path dir name
    · rw [if_pos hp, hp, h]
    · rw [if_neg hp]

theorem c4_witness :
    emptyFS (cache_path dir0 "diet_result") = none ∧
    load_cache dir0 (clear_cache dir0 emptyFS "diet_result") "diet_result" = .null ∧
    clear_cache dir0 emptyFS "diet_result" "p" = emptyFS "p" :=
  ⟨rfl, (c4_clear_then_load dir0 emptyFS "diet_result").1,
    (c4_clear_then_load dir0 emptyFS "diet_result").2 "p" rfl⟩

/-- C6: the health check returns `true` iff the exchange produced an HTTP
response with status 200; a non-200 status, a network error, or a timeout
(both surfacing as `HttpOutcome.failure`) yield `false`.  `ping_backend` is
a total function, so it never raises. -/
theorem c6_ping_backend_iff (o : HttpOutcome) :
    ping_backend o = true ↔ ∃ text bodyJson, o = .response 200 text bodyJson := by
  cases o with
  | failure => simp [ping_backend]
  | response status text bodyJson =>
      simp only [ping_backend, beq_iff_eq, HttpOutcome.response.injEq]
      constructor
      · intro h
        exact ⟨text, bodyJson, h, rfl, rfl⟩
      · rintro ⟨t, j, hs, ht, hj⟩
        exact hs

/-- C7: a diet-plan call with profile `P` records exactly one outbound
request, a `POST` to `/v1/plan` whose JSON body is exactly the
serialization of `P` — so deserializing it yields an object equal to `P`. -/
theorem c7_one_request_roundtrip (profile : Json) (o : HttpOutcome) :
    (generate_diet_plan profile o).1.length = 1 ∧
    (generate_diet_plan profile o).1.map Request.body = [some profile] ∧
    (generate_diet_plan profile o).1.map Request.method = ["POST"] ∧
    (generate_diet_plan profile o).1.map Request.path = ["/v1/plan"] :=
  ⟨rfl, rfl, rfl, rfl⟩

/-- C3: whenever the diet-plan backend call fails — HTTP error status,
connectivity or timeout failure, or JSON decode failure — the generate
handler leaves the displayed result and the whole cache file system
unchanged, and only appends an error message for the user. -/
theorem c3_failure_preserves_state (dir : String) (st : AppState) (ss : SessionState)
    (o : HttpOutcome) (ts : Rat) (e : CallError)
    (h : (generate_diet_plan (build_profile_from_session ss) o).2 = .error e) :
    (diet_generate_handler dir st ss o ts).dietResult = st.dietResult ∧
    (diet_generate_handler dir st ss o ts).fs = st.fs ∧
    (diet_generate_handler dir st ss o ts).messages = st.messages ++ [.errorMsg e] := by
  unfold diet_generate_handler
  rw [h]
  exact ⟨rfl, rfl, rfl⟩

/-- An app state holding a previously generated and cached diet result. -/
def stOld : AppState :=
  { dietResult := .str "old plan",
    fs := save_cache dir0 emptyFS "diet_result" 1 (.str "old plan"),
    messages := [] }

/-- A mocked HTTP 500 response whose body contains "bad profile". -/
def o500 : HttpOutcome :=
  .response 500 "\x7b\"detail\": \"bad profile\"\x7d" none

theorem c3_witness :
    (generate_diet_plan (build_profile_from_session ss0) o500).2
        = .error (.httpError 500 "\x7b\"detail\": \"bad profile\"\x7d") ∧
    (diet_generate_handler dir0 stOld ss0 o500 7).dietResult = stOld.dietResult ∧
    (diet_generate_handler dir0 stOld ss0 o500 7).fs = stOld.fs ∧
    (diet_generate_handler dir0 stOld ss0 o500 7).messages
        = stOld.messages ++ [.errorMsg (.httpError 500 "\x7b\"detail\": \"bad profile\"\x7d")] :=
  ⟨rfl, c3_failure_preserves_state dir0 stOld ss0 o500 7
    (.httpError 500 "\x7b\"detail\": \"bad profile\"\x7d") rfl⟩

/-- C5 (counterexample): the claim "save(a, X) leaves load(b) unchanged for
every pair of distinct names a ≠ b" fails: `os.path.join` discards the
cache directory when the second component is absolute, so the distinct
names `/root/.weightpilot_cache/x` and `x` resolve to the same cache file,
and saving under the first changes what the second loads. -/
theorem c5_counterexample :
    ("/root/.weightpilot_cache/x" : String) ≠ "x" ∧
    load_cache dir0 emptyFS "x" = .null ∧
    load_cache dir0
        (save_cache dir0 emptyFS "/root/.weightpilot_cache/x" 3 (.str "v")) "x"
      = .str "v" := by
  refine ⟨by decide, rfl, by decide⟩

/-- C5 (amended): for distinct names that are both relative — or both
absolute — paths, saving under one name leaves the value loaded under the
other unchanged. -/
theorem c5_amended_save_frame (dir : String) (fs : FS) (a b : String)
    (ts : Rat) (X : Json) (habs : isAbs a = isAbs b) (hab : a ≠ b) :
    load_cache dir (save_cache dir fs a ts X) b = load_cache dir fs b := by
  unfold load_cache save_cache
  rw [if_neg (fun hcon => cache_path_inj dir a b habs hab hcon.symm)]

theorem c5_witness :
    (isAbs "x" = isAbs "y" ∧ ("x" : String) ≠ "y") ∧
    load_cache dir0 (save_cache dir0 emptyFS "x" 3 (.str "v")) "y"
      = load_cache dir0 emptyFS "y" :=
  ⟨⟨rfl, by decide⟩,
    c5_amended_save_frame dir0 emptyFS "x" "y" 3 (.str "v") rfl (by decide)⟩

/-- The stub backend payload of the example scenario in the specification. -/
def scenarioPayloadFields : List (String × Json) :=
  [("targets", .obj [("bmi", .num 24.9), ("bmr", .num 1680), ("tdee", .num 2184),
      ("calorie_target", .num 1684)]),
   ("plan_markdown", .str "# Day 1...")]

/-- The scenario payload as a JSON value. -/
def scenarioPayload : Json := .obj scenarioPayloadFields

/-- The stub backend's HTTP 200 response carrying the scenario payload. -/
def o200 : HttpOutcome := .response 200 "" (some scenarioPayload)

/-- C8 (counterexample): in the example scenario the value returned by
`load("diet_result")` is exactly the stub payload and contains no
timestamp field — the claim that the load returns the payload "plus a
timestamp" fails; the timestamp is only stored inside the cache file,
alongside the payload, and is stripped by `_load_cache`'s `.get("data")`. -/
theorem c8_counterexample :
    load_cache dir0 (diet_generate_handler dir0 stInit ss0 o200 9).fs "diet_result"
        = scenarioPayload ∧
    scenarioPayloadFields.lookup "ts" = none ∧
    scenarioPayloadFields.lookup "timestamp" = none :=
  ⟨rfl, rfl, rfl⟩

/-- C8 (amended): in the example scenario the stub payload is stored
verbatim under the name "diet_result" together with a capture timestamp
(the cache file holds `{"ts": ts, "data": payload}`), the displayed result
is the payload, and a subsequent `load("diet_result")` returns the
identical payload object. -/
theorem c8_amended_scenario :
    (diet_generate_handler dir0 stInit ss0 o200 9).fs (cache_path dir0 "diet_result")
        = some (.valid (.obj [("ts", .num 9), ("data", scenarioPayload)])) ∧
    load_cache dir0 (diet_generate_handler dir0 stInit ss0 o200 9).fs "diet_result"
        = scenarioPayload ∧
    (diet_generate_handler dir0 stInit ss0 o200 9).dietResult = scenarioPayload :=
  ⟨rfl, rfl, rfl⟩

/-- The session state with every allergy deselected (the multiselect widget
allows an empty selection). -/
def ssEmptySel : SessionState := { ss0 with allergies := [] }

/-- C9 (counterexample): with an empty allergy selection the built profile
has `allergies = []` although `"none"` is not among the selected allergies,
so "allergies equal the empty list exactly when the string 'none' is among
the selected allergies" fails in the right-to-left direction. -/
theorem c9_counterexample :
    (build_profile_from_session ssEmptySel).lookupField "allergies" = some (.arr []) ∧
    "none" ∉ ssEmptySel.allergies :=
  ⟨rfl, by decide⟩

/-- C9 (amended): the built profile's `diet` is `null` exactly when the
selected pattern is `"none"`; its `allergies` (resp. `medical_flags`) is
the empty list exactly when `"none"` is among the selected strings or the
selection itself is empty — so selecting `"none"` together with concrete
entries discards the concrete ones — and otherwise the selected list is
passed through verbatim. -/
theorem c9_amended_none_handling (ss : SessionState) :
    ((build_profile_from_session ss).lookupField "diet" = some .null ↔
        ss.dietPattern = "none") ∧
    ((build_profile_from_session ss).lookupField "allergies" = some (.arr []) ↔
        ("none" ∈ ss.allergies ∨ ss.allergies = [])) ∧
    ((build_profile_from_session ss).lookupField "medical_flags" = some (.arr []) ↔
        ("none" ∈ ss.medicalFlags ∨ ss.medicalFlags = [])) ∧
    ("none" ∉ ss.allergies →
        (build_profile_from_session ss).lookupField "allergies"
          = some (.arr (ss.allergies.map .str))) ∧
    ("none" ∉ ss.medicalFlags →
        (build_profile_from_session ss).lookupField "medical_flags"
          = some (.arr (ss.medicalFlags.map .str))) ∧
    (ss.dietPattern ≠ "none" →
        (build_profile_from_session ss).lookupField "diet" = some (.str ss.dietPattern)) := by
  have hd : (build_profile_from_session ss).lookupField "diet"
      = some (if ss.dietPattern = "none" then Json.null else .str ss.dietPattern) := rfl
  have ha : (build_profile_from_session ss).lookupField "allergies"
      = some (.arr (if "none" ∈ ss.allergies then [] else ss.allergies.map .str)) := rfl
  have hm : (build_profile_from_session ss).lookupField "medical_flags"
      = some (.arr (if "none" ∈ ss.medicalFlags then [] else ss.medicalFlags.map .str)) := rfl
  refine ⟨?_, ?_, ?_, ?_, ?_, ?_⟩
  · rw [hd]
    by_cases hc : ss.dietPattern = "none" <;> simp [hc]
  · rw [ha]
    by_cases hc : "none" ∈ ss.allergies <;> simp [hc, List.map_eq_nil_iff]
  · rw [hm]
    by_cases hc : "none" ∈ ss.medicalFlags <;> simp [hc, List.map_eq_nil_iff]
  · intro hc
    rw [ha, if_neg hc]
  · intro hc
    rw [hm, if_neg hc]
  · intro hc
    rw [hd, if_neg hc]

/-- A session state with concrete (non-"none") selections. -/
def ssConcrete : SessionState :=
  { ss0 with dietPattern := "vegan", allergies := ["peanut", "dairy"],
             medicalFlags := ["diabetes"] }

theorem c9_witness :
    ("none" ∉ ssConcrete.allergies ∧ "none" ∉ ssConcrete.medicalFlags ∧
      ssConcrete.dietPattern ≠ "none") ∧
    ((build_profile_from_session ssConcrete).lookupField "allergies"
        = some (.arr (ssConcrete.allergies.map .str)) ∧
     (build_profile_from_session ssConcrete).lookupField "medical_flags"
        = some (.arr (ssConcrete.medicalFlags.map .str)) ∧
     (build_profile_from_session ssConcrete).lookupField "diet"
        = some (.str ssConcrete.dietPattern)) :=
  ⟨⟨by decide, by decide, by decide⟩,
   ⟨(c9_amended_none_handling ssConcrete).2.2.2.1 (by decide),
    (c9_amended_none_handling ssConcrete).2.2.2.2.1 (by decide),
    (c9_amended_none_handling ssConcrete).2.2.2.2.2 (by decide)⟩⟩

/-- C10 (counterexample): a 2xx response that parses as JSON but not as a
JSON object — here the JSON array `[]` — makes `recipe_suggestions` raise
an `AttributeError` (`.get` on a list) instead of returning the empty
suggestion list, so the claim fails for responses whose JSON body is not
an object. -/
theorem c10_counterexample :
    recipe_suggestions (.response 200 "[]" (some (.arr []))) = .error .attrError ∧
    recipe_suggestions (.response 200 "[]" (some (.arr []))) ≠ .ok (.arr []) :=
  ⟨rfl, fun h => Except.noConfusion h⟩

/-- C10 (amended): for every 2xx response whose body parses as a JSON
object, `recipe_suggestions` returns the value under the `"suggestions"`
key — the empty list when the key is absent — and `find_local_pros`
likewise for the `"items"` key; a 2xx body parsing to a non-object JSON
value instead raises. -/
theorem c10_amended_get_with_default (status : Nat) (text : String)
    (fields : List (String × Json)) (h2 : 200 ≤ status) (h3 : status < 300) :
    recipe_suggestions (.response status text (some (.obj fields)))
        = .ok ((fields.lookup "suggestions").getD (.arr [])) ∧
    find_local_pros (.response status text (some (.obj fields)))
        = .ok ((fields.lookup "items").getD (.arr [])) := by
  have hr : raise_then_json (.response status text (some (.obj fields)))
      = .ok (.obj fields) := by
    show (if 400 ≤ status ∧ status < 600
        then Except.error (CallError.httpError status text)
        else Except.ok (Json.obj fields)) = .ok (.obj fields)
    rw [if_neg (by omega : ¬(400 ≤ status ∧ status < 600))]
  constructor <;>
    simp [recipe_suggestions, find_local_pros, hr, Except.bind, dictGet]

theorem c10_witness :
    (200 ≤ 200 ∧ 200 < 300) ∧
    recipe_suggestions (.response 200 "" (some (.obj [("suggestions", .arr [.str "dal"])])))
        = .ok (.arr [.str "dal"]) ∧
    find_local_pros (.response 200 "" (some (.obj [("suggestions", .arr [.str "dal"])])))
        = .ok (.arr []) :=
  ⟨by decide,
   (c10_amended_get_with_default 200 "" [("suggestions", .arr [.str "dal"])]
      (by decide) (by decide)).1,
   (c10_amended_get_with_default 200 "" [("suggestions", .arr [.str "dal"])]
      (by decide) (by decide)).2⟩

end WeightPilot
